import Mathlib

/-!
Shallow embedding of `configdot.py` (INI-style config parser with nested
sections, attribute-style config tree, serializer and merger), together
with theorems settling the specification claims.

Python machine strings are modelled as Lean `String` restricted to ASCII;
the regex-based line classifier of the source is translated into explicit
character scans that implement exactly the source's regexes (which are
backtracking-free on their disjoint character classes).
-/

/-- The whitespace class of Python regex `\s` and of `str.strip` (ASCII):
space, tab, newline, carriage return, vertical tab, form feed. -/
def isSpaceChar (c : Char) : Bool :=
  c == ' ' || c == '\t' || c == '\n' || c == '\r' || c == '\x0b' || c == '\x0c'

/-- Python regex `\w` (ASCII subset): letters, digits and underscore. -/
def isWordChar (c : Char) : Bool :=
  c.isAlphanum || c == '_'

/-- The section-name character class `[\w-]` of `RE_SECTION_HEADER`. -/
def isSecNameChar (c : Char) : Bool :=
  isWordChar c || c == '-'

/-- Python `str.strip()`: remove leading and trailing whitespace. -/
def stripStr (s : String) : String :=
  String.mk (((s.toList.dropWhile isSpaceChar).reverse.dropWhile isSpaceChar).reverse)

/-- Python `' '.join(lines)` as used for pending comment lines. -/
def joinSp (lines : List String) : String :=
  String.intercalate " " lines

/-- Source `_is_whitespace`: `re.match(r'\s*$', s)` — the line is empty or
whitespace only. -/
def _is_whitespace (s : String) : Bool :=
  s.toList.all isSpaceChar

/-- Source `_is_comment`: `re.match(r'\s*[#;]\s*(.*)', s)` — optional leading
whitespace then a `#` or `;` marker (the rest always matches `.*`). -/
def _is_comment (s : String) : Bool :=
  match s.toList.dropWhile isSpaceChar with
  | c :: _ => c == '#' || c == ';'
  | [] => false

/-- Group 1 of `RE_COMMENT`: the text after the marker and the whitespace
following it (greedy `\s*`, then `(.*)` to end of line). -/
def comment_text (s : String) : String :=
  match s.toList.dropWhile isSpaceChar with
  | _ :: rest => String.mk (rest.dropWhile isSpaceChar)
  | [] => ""

/-- Source `_parse_item_def`: `re.match(r'\s*(\w+)\s*=\s*(.*?)\s*$', s)`, returning
the `(varname, val)` groups on a match.  The character classes `\w`, `\s`
and the literal `=` are pairwise disjoint, so the greedy/lazy regex match is
equivalent to this direct scan; group 2 is the text after `=` with leading
whitespace consumed by the greedy `\s*` and trailing whitespace by `\s*$`. -/
def _parse_item_def (s : String) : Option (String × String) :=
  let cs := s.toList.dropWhile isSpaceChar
  let name := cs.takeWhile isWordChar
  if name.isEmpty then none
  else
    match (cs.dropWhile isWordChar).dropWhile isSpaceChar with
    | '=' :: tail =>
        some (String.mk name, stripStr (String.mk tail))
    | _ => none

/-- Source `_parse_section_header`: `re.match(r'\s*(\[+)([\w-]+)(\]+)\s*$', s)`,
followed by the source's check that the opening and closing bracket counts
are equal; returns `(sec_name, sec_level)` where the level is the bracket
count.  Bracket, name and whitespace character classes are disjoint, so the
regex is equivalent to this scan. -/
def _parse_section_header (s : String) : Option (String × Nat) :=
  let cs := s.toList.dropWhile isSpaceChar
  let opening := cs.takeWhile (fun c => c == '[')
  let r1 := cs.dropWhile (fun c => c == '[')
  let name := r1.takeWhile isSecNameChar
  let r2 := r1.dropWhile isSecNameChar
  let closing := r2.takeWhile (fun c => c == ']')
  let r3 := r2.dropWhile (fun c => c == ']')
  if opening.length ≥ 1 && name.length ≥ 1 && closing.length ≥ 1 &&
      r3.all isSpaceChar then
    if opening.length == closing.length then
      some (String.mk name, opening.length)
    else none
  else none

/-- Literal values of the config format, the value universe of this
embedding: integers and (nested) lists, the literal fragment of Python's
`ast.literal_eval` grammar exercised by the configuration format. -/
inductive Value where
  | int : Int → Value
  | list : List Value → Value

/-- Decimal digits to a natural number. -/
def digitsToNat (ds : List Char) : Nat :=
  ds.foldl (fun a c => a * 10 + (c.toNat - 48)) 0

/-- Parse a leading integer literal (optional minus sign, one or more
digits), returning the value and the rest of the input. -/
def parseIntLit (cs : List Char) : Option (Int × List Char) :=
  match cs with
  | '-' :: rest =>
      let ds := rest.takeWhile Char.isDigit
      if ds.isEmpty then none
      else some (-(digitsToNat ds : Int), rest.dropWhile Char.isDigit)
  | _ =>
      let ds := cs.takeWhile Char.isDigit
      if ds.isEmpty then none
      else some ((digitsToNat ds : Int), cs.dropWhile Char.isDigit)

/-- Drop leading whitespace. -/
def skipWs (cs : List Char) : List Char :=
  cs.dropWhile isSpaceChar

mutual
/-- Parse one literal (integer or bracketed list) at the head of the input.
Fuel-indexed so the definition is structural and kernel-reducible; every
recursive call is preceded by the consumption of at least one character, so
fuel `length + 1` always suffices. -/
def parseLit : Nat → List Char → Option (Value × List Char)
  | 0, _ => none
  | fuel + 1, cs =>
    match cs with
    | '[' :: rest => parseListItems fuel (skipWs rest) []
    | _ =>
      match parseIntLit cs with
      | some (n, r) => some (.int n, r)
      | none => none

/-- Parse the items of a list literal after the opening bracket, allowing
an optional trailing comma, mirroring Python list literals. -/
def parseListItems : Nat → List Char → List Value → Option (Value × List Char)
  | 0, _, _ => none
  | fuel + 1, cs, acc =>
    match cs with
    | ']' :: rest => some (.list acc, rest)
    | _ =>
      match parseLit fuel cs with
      | none => none
      | some (v, r) =>
        match skipWs r with
        | ',' :: r3 => parseListItems fuel (skipWs (r3)) (acc ++ [v])
        | ']' :: r3 => some (.list (acc ++ [v]), r3)
        | _ => none
end

/-- Model of `ast.literal_eval` on the embedding's value universe
(integers and nested lists): `some v` when the whole string is one literal
surrounded by optional whitespace, `none` when evaluation raises
`ValueError`/`SyntaxError` (the source collapses "incomplete" and "broken"
into the same failure). -/
def literal_eval (s : String) : Option Value :=
  match parseLit (s.length + 1) (skipWs s.toList) with
  | some (v, rest) => if (skipWs rest).isEmpty then some v else none
  | none => none

mutual
/-- Model of `repr`/`pprint.pformat` on the value universe, for values whose
rendering fits on one line (the claims only exercise such values):
integers in decimal, lists bracketed with elements joined by `", "`. -/
def format_value : Value → String
  | .int n => toString n
  | .list vs => "[" ++ format_vlist vs ++ "]"

/-- Comma-separated rendering of list elements (helper of `format_value`). -/
def format_vlist : List Value → String
  | [] => ""
  | [v] => format_value v
  | v :: w :: rest => format_value v ++ ", " ++ format_vlist (w :: rest)
end


/-- Source `ConfigItem`: a named leaf holding one literal value and a comment. -/
structure ConfigItem where
  name : String
  value : Value
  comment : String

/-- A node of the config tree: either a `ConfigItem` leaf or a
`ConfigContainer` with its `_comment` string and its ordered `_items`
mapping (a Python `dict` keyed by name, modelled as an ordered association
list, matching dict insertion/update order). -/
inductive Node where
  | item : ConfigItem → Node
  | container : String → List (String × Node) → Node

/-- The `_comment` slot of an item or container. -/
def commentOf : Node → String
  | .item it => it.comment
  | .container cm _ => cm

/-- The `_items` mapping of a container (`[]` for an item leaf, which has
no mapping; the parser only ever asks containers). -/
def childrenOf : Node → List (String × Node)
  | .item _ => []
  | .container _ ch => ch

/-- Ordered-dict lookup by key. -/
def lookupKey (ch : List (String × Node)) (k : String) : Option Node :=
  match ch with
  | [] => none
  | (k1, n) :: rest => if k1 = k then some n else lookupKey rest k

/-- Source `ConfigContainer.__contains__`: membership by name in `_items`. -/
def containsKey (ch : List (String × Node)) (k : String) : Bool :=
  match ch with
  | [] => false
  | (k1, _) :: rest => k1 = k || containsKey rest k

/-- Python dict assignment `d[k] = v`: update in place (keeping the key's
position) when the key exists, else append. -/
def setKey (ch : List (String × Node)) (k : String) (v : Node) : List (String × Node) :=
  match ch with
  | [] => [(k, v)]
  | (k1, n) :: rest => if k1 = k then (k, v) :: rest else (k1, n) :: setKey rest k v

/-- A Python value flowing through attribute reads/writes: either a plain
literal value or a tree node (`ConfigItem`/`ConfigContainer` instance). -/
inductive PyVal where
  | val : Value → PyVal
  | node : Node → PyVal

/-- Source `ConfigContainer.__getattr__`: look the name up in `_items`; a missing
name raises `AttributeError` (the container is read, never modified — the
failure path only raises); a `ConfigItem` is unwrapped to its value, any
other (container) child is returned itself. -/
def cc_getattr (ch : List (String × Node)) (attr : String) : Except String PyVal :=
  match lookupKey ch attr with
  | none => .error ("no such item or section: \x27" ++ attr ++ "\x27")
  | some (.item it) => .ok (.val it.value)
  | some n => .ok (.node n)

/-- Source `ConfigContainer.__setattr__`, first branch: the assigned value is a
`ConfigItem` or `ConfigContainer` instance, so `_items[attr] = value`
(replaces an existing binding in place or appends a new one).  On an item
leaf (never reached by the source) this is the identity. -/
def cc_setattr_node : Node → String → Node → Node
  | .container cm ch, attr, v => .container cm (setKey ch attr v)
  | .item it, _, _ => .item it

mutual
/-- Source `ConfigContainer.__setattr__` for a plain assigned value (neither
`ConfigItem` nor `ConfigContainer`): if `attr` is bound in `_items`, the
source runs `self._items[attr].value = value` on the bound child; else it
appends a fresh `ConfigItem(name=attr, value=value)` with an empty comment.
On a `ConfigItem` receiver (plain Python attribute assignment, reached via
`.value` writes) the `value` field is set.  The source's `attr ==
'_comment'` branch stores the assigned object in the comment slot; comments
are strings in this embedding and no modelled operation assigns a literal
`Value` to `'_comment'`, so that branch has no counterpart here and
theorems about this function carry `attr ≠ "_comment"` where they speak
for the source. -/
def cc_setattr_plain : Node → String → Value → Node
  | .item it, attr, v =>
      if attr = "value" then .item { it with value := v } else .item it
  | .container cm ch, attr, v =>
      if containsKey ch attr then .container cm (setValueAt ch attr v)
      else .container cm (ch ++ [(attr, .item ⟨attr, v, ""⟩)])

/-- Helper of `cc_setattr_plain`: `self._items[attr].value = value` — run
the Python attribute assignment `.value = value` on the child bound at
`attr` (a field set for an item child, a recursive `__setattr__` with
attribute `"value"` for a container child). -/
def setValueAt : List (String × Node) → String → Value → List (String × Node)
  | [], _, _ => []
  | (k, c) :: rest, attr, v =>
      if k = attr then (k, cc_setattr_plain c "value" v) :: rest
      else (k, c) :: setValueAt rest attr v
end

/-- Python attribute read `obj.value` as it appears in `update_config`
(`item.value`): a field read on a `ConfigItem`, a `__getattr__` call on a
`ConfigContainer` (which may raise `AttributeError`). -/
def py_read_value : Node → Except String PyVal
  | .item it => .ok (.val it.value)
  | .container _ ch => cc_getattr ch "value"

/-- Python attribute write `obj.value = pv` as it appears in
`update_config` (`item_old.value = item.value`): a field set on a
`ConfigItem` when the value is a literal; `__setattr__` dispatch on a
container.  A `ConfigItem` whose `value` field would hold a tree node is
outside the embedding's value universe (no claim reaches it), made
explicit as an error. -/
def py_write_value : Node → PyVal → Except String Node
  | .item it, .val v => .ok (.item { it with value := v })
  | .item _, .node _ => .error "unmodelled: ConfigItem.value assigned a tree node"
  | .container cm ch, .node n => .ok (cc_setattr_node (.container cm ch) "value" n)
  | .container cm ch, .val v => .ok (cc_setattr_plain (.container cm ch) "value" v)

/-- Source `ConfigItem.item_def`: `f'{name} = {pprint.pformat(self.value)}'`. -/
def item_def (it : ConfigItem) : String :=
  it.name ++ " = " ++ format_value it.value

/-- Whether the child bound at `a` (if any) is a `ConfigItem`. -/
def boundToItem (n : Node) (a : String) : Bool :=
  match lookupKey (childrenOf n) a with
  | some (.item _) => true
  | _ => false

/-- Whether the child bound at `a` (if any) is a `ConfigContainer`. -/
def boundToContainer (n : Node) (a : String) : Bool :=
  match lookupKey (childrenOf n) a with
  | some (.container _ _) => true
  | _ => false


/-!
The parser of the source mutates container objects held by reference (the
`sections` level index and `current_section` alias containers inside the
tree under construction).  The embedding addresses containers by their
access path from the root instead.  This is faithful: a container bound in
the index is displaced from the tree only when a later section of the same
level overwrites its binding (the parent of a level-N section is always a
recorded level-(N-1) container, so a binding is only ever overwritten by a
same-level, later-created section), and that later section then precedes
it in every `parents[-1]` choice, so a displaced container is never picked
as a parent again and paths resolve to the same containers the source's
object references do.
-/

/-- Resolve a path of names from a node. -/
def getNodeAt : Node → List String → Option Node
  | n, [] => some n
  | .container _ ch, a :: p =>
      match lookupKey ch a with
      | some c => getNodeAt c p
      | none => none
  | .item _, _ :: _ => none

/-- The `_items` mapping of the container at a path (`[]` if unresolved;
the parser only forms paths it has created). -/
def childrenAt (n : Node) (p : List String) : List (String × Node) :=
  match getNodeAt n p with
  | some (.container _ ch) => ch
  | _ => []

/-- Apply `f` to the child bound at `k`, if any. -/
def mapKey (ch : List (String × Node)) (k : String) (f : Node → Node) : List (String × Node) :=
  match ch with
  | [] => []
  | (k1, n) :: rest => if k1 = k then (k1, f n) :: rest else (k1, n) :: mapKey rest k f

/-- Rewrite the node at a path with `f` (identity when the path does not
resolve, which the parser never produces). -/
def modifyAt : Node → List String → (Node → Node) → Node
  | n, [], f => f n
  | .container cm ch, a :: p, f =>
      .container cm (mapKey ch a (fun c => modifyAt c p f))
  | .item it, _ :: _, _ => .item it

/-- A fatal parse error: the 1-based line number the source interpolates
into the `ValueError` message, and the message text. -/
structure ParseError where
  lnum : Nat
  msg : String
deriving DecidableEq

/-- The state the source threads through its line loop: pending comment
lines, the current section (a path from the root; `none` models the
initial Python `None`), the pending multi-line item name and its fragment
list, the tree built so far, and the `sections` level index in insertion
order (paths instead of object references, root `[]` at level 0). -/
structure PState where
  commentLines : List String
  currentSection : Option (List String)
  currentItemName : Option String
  currentDefLines : List String
  config : Node
  sections : List (List String × Nat)

/-- The state at loop entry in `_parse_config`. -/
def initPState : PState :=
  { commentLines := []
    currentSection := none
    currentItemName := none
    currentDefLines := []
    config := .container "" []
    sections := [([], 0)] }

/-- One iteration of the line loop of `_parse_config` (source lines
231-300): classify the line in the source's order (section header, then
comment, then whitespace, then item definition, then
continuation-or-error) and update the state.  In the header branch the
source registers the new container in `sections` before filtering for
parents; the new entry's level `sec_level` never equals `sec_level - 1`,
so filtering the prior index is equivalent.  A pending item name is a
nonempty `\w+` match, so Python truthiness of `current_item_name` is
`Option.isSome`, and likewise `not current_section` is `Option.isNone`. -/
def parseLine (st : PState) (lnum : Nat) (li : String) : Except ParseError PState :=
  match _parse_section_header li with
  | some (secname, sec_level) =>
      if st.currentItemName.isSome then
        .error ⟨lnum, "could not evaluate definition"⟩
      else
        let comment := joinSp st.commentLines
        let parents := st.sections.filter (fun p => p.2 == sec_level - 1)
        match parents.getLast? with
        | none => .error ⟨lnum, "subsection outside a parent section"⟩
        | some (ppath, _) =>
            let newPath := ppath ++ [secname]
            .ok { st with
              config := modifyAt st.config ppath
                (fun n => cc_setattr_node n secname (.container comment []))
              sections := st.sections ++ [(newPath, sec_level)]
              currentSection := some newPath
              commentLines := [] }
  | none =>
  if _is_comment li then
    if st.currentItemName.isSome then
      .error ⟨lnum, "could not evaluate definition"⟩
    else
      .ok { st with commentLines := st.commentLines ++ [comment_text li] }
  else if _is_whitespace li then
    if st.currentItemName.isSome then
      .error ⟨lnum, "could not evaluate definition"⟩
    else
      .ok st
  else match _parse_item_def li with
  | some (item_name, val) =>
      if st.currentItemName.isSome then
        .error ⟨lnum, "could not evaluate definition"⟩
      else
        match st.currentSection with
        | none => .error ⟨lnum, "item definition outside of a section"⟩
        | some spath =>
            if containsKey (childrenAt st.config spath) item_name then
              .error ⟨lnum, "duplicate definition"⟩
            else
              match literal_eval val with
              | some val_eval =>
                  let comment := joinSp st.commentLines
                  .ok { st with
                    config := modifyAt st.config spath
                      (fun n => cc_setattr_node n item_name
                        (.item ⟨item_name, val_eval, comment⟩))
                    commentLines := []
                    currentDefLines := []
                    currentItemName := none }
              | none =>
                  .ok { st with
                    currentItemName := some item_name
                    currentDefLines := st.currentDefLines ++ [val] }
  | none =>
      match st.currentItemName with
      | none => .error ⟨lnum, "syntax error"⟩
      | some item_name =>
          let defLines := st.currentDefLines ++ [stripStr li]
          match literal_eval (String.join defLines) with
          | some val_eval =>
              match st.currentSection with
              | none =>
                  -- `setattr(None, ...)`: unreachable from the initial state
                  -- (a pending item implies an open section)
                  .error ⟨lnum, "AttributeError: NoneType"⟩
              | some spath =>
                  let comment := joinSp st.commentLines
                  .ok { st with
                    config := modifyAt st.config spath
                      (fun n => cc_setattr_node n item_name
                        (.item ⟨item_name, val_eval, comment⟩))
                    commentLines := []
                    currentDefLines := []
                    currentItemName := none }
          | none =>
              .ok { st with currentDefLines := defLines }

/-- The line loop: `lnum` is the 1-based number of the next line.  At end
of input the source raises `could not evaluate definition` at the last
processed line (`lnum - 1` here) when a definition is still pending, else
returns the root config. -/
def parseLinesFrom : PState → Nat → List String → Except ParseError Node
  | st, lnum, [] =>
      if st.currentItemName.isSome then
        .error ⟨lnum - 1, "could not evaluate definition"⟩
      else
        .ok st.config
  | st, lnum, li :: rest =>
      match parseLine st lnum li with
      | .error e => .error e
      | .ok st1 => parseLinesFrom st1 (lnum + 1) rest

/-- Source `_parse_config`: parse INI file lines into the root container, or a
fatal `ValueError` (no partial tree is returned on error, by the return
type). -/
def _parse_config (lines : List String) : Except ParseError Node :=
  parseLinesFrom initPState 1 lines


mutual
/-- Source `_dump_section`: walk a container's `_items` in insertion order; for a
container child yield the header line `'[' + name + ']'` (a single bracket
pair, written literally in the source with no level parameter) and recurse;
for an item child yield its `item_def` line. -/
def _dump_section : Node → List String
  | .item _ => []
  | .container _ ch => dumpChildren ch

/-- The loop body of `_dump_section` over the `(name, child)` pairs. -/
def dumpChildren : List (String × Node) → List String
  | [] => []
  | (item_name, .container cm ch) :: rest =>
      (("[" ++ item_name ++ "]") :: _dump_section (.container cm ch)) ++ dumpChildren rest
  | (_, .item it) :: rest => item_def it :: dumpChildren rest
end

/-- Source `dump_config`: the dumped lines joined with newlines. -/
def dump_config (cfg : Node) : String :=
  String.intercalate "\n" (_dump_section cfg)

/-- The names bound at the top level of a tree, in order (an observer used
to compare trees without a decidable equality on `Node`). -/
def topNames (n : Node) : List String :=
  (childrenOf n).map (fun p => p.1)


/-- The `create_new_items` argument of `update_config`: a uniform boolean
or a list of section names for which creation is allowed (the source tests
`isinstance(create_new_items, list)`). -/
inductive CNI where
  | flag : Bool → CNI
  | names : List String → CNI

/-- The per-section creation policy: `secname in create_new_items` for a
list, the boolean itself otherwise. -/
def cniFor (cni : CNI) (secname : String) : Bool :=
  match cni with
  | .names l => l.contains secname
  | .flag b => b

/-- The inner loop of `update_config` (source lines 337-349) over the
`(itname, item)` pairs of one source section, threading the target section
`sec_old` and the list of `logger.warning` messages.  `itname in sec_old`
on a `ConfigItem` target child has no `__contains__` and raises
`TypeError` in Python, modelled as an error. -/
def update_items (secname : String) (cni uc : Bool) :
    Node → List (String × Node) → List String → Except String (Node × List String)
  | sec_old, [], warns => .ok (sec_old, warns)
  | sec_old, (itname, item) :: rest, warns =>
      match sec_old with
      | .item _ => .error "TypeError: argument of type ConfigItem is not iterable"
      | .container cm ch =>
          match lookupKey ch itname with
          | some item_old =>
              if uc then
                update_items secname cni uc
                  (cc_setattr_node (.container cm ch) itname item) rest warns
              else
                match py_read_value item with
                | .error e => .error e
                | .ok pv =>
                    match py_write_value item_old pv with
                    | .error e => .error e
                    | .ok item_old1 =>
                        update_items secname cni uc
                          (.container cm (setKey ch itname item_old1)) rest warns
          | none =>
              if cni then
                update_items secname cni uc
                  (cc_setattr_node (.container cm ch) itname item) rest warns
              else
                update_items secname cni uc (.container cm ch) rest
                  (warns ++ ["unknown config item: [" ++ secname ++ "]/" ++ itname])

/-- The outer loop of `update_config` over the `(secname, sec)` pairs of
`cfg_new`.  Iterating a `ConfigItem` child of `cfg_new` when its name
exists in `cfg` raises `TypeError` in Python (`for itname, item in sec`),
modelled as an error; the source's in-place mutation of the aliased
`sec_old` is modelled by writing the updated section back at its key. -/
def update_config_loop (cfg : Node) (pairs : List (String × Node)) (cns : Bool)
    (cni : CNI) (uc : Bool) (warns : List String) : Except String (Node × List String) :=
  match pairs with
  | [] => .ok (cfg, warns)
  | (secname, sec) :: rest =>
      let cniB := cniFor cni secname
      match cfg with
      | .item _ => .error "TypeError: argument of type ConfigItem is not iterable"
      | .container cm ch =>
          match lookupKey ch secname with
          | some sec_old =>
              let sec_old := if uc then
                  match sec_old with
                  | .item it => .item { it with comment := commentOf sec }
                  | .container _ sch => .container (commentOf sec) sch
                else sec_old
              match sec with
              | .item _ => .error "TypeError: cannot unpack ConfigItem"
              | .container _ sch =>
                  match update_items secname cniB uc sec_old sch warns with
                  | .error e => .error e
                  | .ok (sec_old1, warns1) =>
                      update_config_loop (.container cm (setKey ch secname sec_old1))
                        rest cns cni uc warns1
          | none =>
              if cns then
                update_config_loop
                  (cc_setattr_node (.container cm ch) secname sec) rest cns cni uc warns
              else
                update_config_loop cfg rest cns cni uc
                  (warns ++ ["unknown config section: " ++ secname])

/-- Source `update_config`: update `cfg` from `cfg_new` under the
`create_new_sections` / `create_new_items` / `update_comments` policies,
returning the updated target and the warnings the source sends to
`logger.warning` (a non-fatal channel). -/
def update_config (cfg cfg_new : Node) (create_new_sections : Bool) (create_new_items : CNI)
    (update_comments : Bool) : Except String (Node × List String) :=
  match cfg_new with
  | .item _ => .error "TypeError: ConfigItem is not iterable"
  | .container _ newCh => update_config_loop cfg newCh create_new_sections create_new_items
      update_comments []

/-- The parser state reached after the lines `["[sec]", "x = [1,"]`: a
multi-line literal for `x` is pending inside section `sec` (used to
instantiate C5). -/
def stC5 : PState :=
  { commentLines := []
    currentSection := some ["sec"]
    currentItemName := some "x"
    currentDefLines := ["[1,"]
    config := .container "" [("sec", .container "" [])]
    sections := [([], 0), (["sec"], 1)] }

/-- The parser state reached after the lines `["[sec]", "x = 1"]`: item
`x` is recorded in section `sec`, nothing pending (used to instantiate
C6). -/
def stC6 : PState :=
  { commentLines := []
    currentSection := some ["sec"]
    currentItemName := none
    currentDefLines := []
    config := .container "" [("sec", .container "" [("x", .item ⟨"x", .int 1, ""⟩)])]
    sections := [([], 0), (["sec"], 1)] }

/-- The parser state reached after the lines `["[sec]", "x = [1,"]`, a
separate copy for instantiating C7. -/
def stC7 : PState :=
  { commentLines := []
    currentSection := some ["sec"]
    currentItemName := some "x"
    currentDefLines := ["[1,"]
    config := .container "" [("sec", .container "" [])]
    sections := [([], 0), (["sec"], 1)] }

example : literal_eval "1" = some (.int 1) := rfl

example : literal_eval "5" = some (.int 5) := rfl

example : literal_eval "[1," = none := rfl

example : literal_eval "[1,2, 3]" = some (.list [.int 1, .int 2, .int 3]) := rfl

example : literal_eval "[1, 2, 3]" = some (.list [.int 1, .int 2, .int 3]) := rfl

example : literal_eval "" = none := rfl

example : format_value (.list [.int 1, .int 2, .int 3]) = "[1, 2, 3]" := rfl

example : cc_setattr_plain (.container "" [("s", .container "c" [])]) "s" (.int 5)
    = .container "" [("s", .container "c" [("value", .item ⟨"value", .int 5, ""⟩)])] := rfl

example : cc_getattr [("x", .item ⟨"x", .int 5, ""⟩)] "x" = .ok (.val (.int 5)) := rfl

example : _parse_config ["[sec]", "x = 5"]
    = .ok (.container "" [("sec", .container "" [("x", .item ⟨"x", .int 5, ""⟩)])]) := rfl

example : _parse_config ["[sec]", "x = [1,", "2, 3]"]
    = .ok (.container "" [("sec", .container ""
        [("x", .item ⟨"x", .list [.int 1, .int 2, .int 3], ""⟩)])]) := rfl

example : _parse_config ["[[sub]]"]
    = .error ⟨1, "subsection outside a parent section"⟩ := rfl

example : _parse_config ["[sec]", "x = 1", "x = 2"]
    = .error ⟨3, "duplicate definition"⟩ := rfl

example : _parse_config ["[top]", "[[sub]]", "x = 1"]
    = .ok (.container "" [("top", .container ""
        [("sub", .container "" [("x", .item ⟨"x", .int 1, ""⟩)])])]) := rfl

example : _dump_section (.container "" [("top", .container ""
    [("sub", .container "" [("x", .item ⟨"x", .int 1, ""⟩)])])])
    = ["[top]", "[sub]", "x = 1"] := rfl

example : update_config
    (.container "" [("sec", .container "" [("x", .item ⟨"x", .int 1, ""⟩)])])
    (.container "" [("sec", .container "" [("y", .item ⟨"y", .int 2, ""⟩)])])
    true (.flag false) false
    = .ok (.container "" [("sec", .container "" [("x", .item ⟨"x", .int 1, ""⟩)])],
        ["unknown config item: [sec]/y"]) := rfl

example : (do
    let s1 ← parseLine initPState 1 "[sec]"
    parseLine s1 2 "x = [1,") = Except.ok stC5 := rfl

example : (do
    let s1 ← parseLine initPState 1 "[sec]"
    parseLine s1 2 "x = 1") = Except.ok stC6 := rfl

/-- A `lookupKey` hit implies `containsKey`. -/
theorem containsKey_of_lookupKey (ch : List (String × Node)) (n : String) (c : Node)
    (h : lookupKey ch n = some c) : containsKey ch n = true := by
  induction ch with
  | nil => simp [lookupKey] at h
  | cons hd tl ih =>
      obtain ⟨k1, n1⟩ := hd
      by_cases hk : k1 = n
      · simp [containsKey, hk]
      · simp only [lookupKey, if_neg hk] at h
        simp [containsKey, hk, ih h]

/-- Running `self._items[attr].value = value` on the child bound at `attr`
rewrites exactly that binding. -/
theorem setValueAt_lookupKey (ch : List (String × Node)) (n : String) (v : Value) (c : Node)
    (h : lookupKey ch n = some c) :
    lookupKey (setValueAt ch n v) n = some (cc_setattr_plain c "value" v) := by
  induction ch with
  | nil => simp [lookupKey] at h
  | cons hd tl ih =>
      obtain ⟨k1, n1⟩ := hd
      by_cases hk : k1 = n
      · subst hk
        simp only [lookupKey, if_pos rfl] at h
        cases h
        simp [setValueAt, lookupKey]
      · simp only [lookupKey, if_neg hk] at h
        simp [setValueAt, lookupKey, hk, ih h]

/-- C1: the claim asserts that parsing the lines of `dump_config(T)` of a
parsed tree `T` reproduces the same item names, section nesting structure
and values.  The code violates this on any tree with a subsection:
`_dump_section` emits a single bracket pair for every container, so the
level-2 subsection `sub` of the tree parsed from
`["[top]", "[[sub]]", "x = 1"]` is dumped as `"[sub]"` and re-parses as a
second top-level section — the reparsed root has top-level names
`["top", "sub"]` where the original has `["top"]`.  `dump_config`'s own
docstring says the output "reproduces the configuration when fed to
`_parse_config()`", so this is a defect of the code. -/
theorem C1_dump_roundtrip_breaks_nesting :
    _parse_config ["[top]", "[[sub]]", "x = 1"]
      = .ok (.container "" [("top", .container ""
          [("sub", .container "" [("x", .item ⟨"x", .int 1, ""⟩)])])])
    ∧ _dump_section (.container "" [("top", .container ""
          [("sub", .container "" [("x", .item ⟨"x", .int 1, ""⟩)])])])
      = ["[top]", "[sub]", "x = 1"]
    ∧ _parse_config ["[top]", "[sub]", "x = 1"]
      = .ok (.container "" [("top", .container "" []),
          ("sub", .container "" [("x", .item ⟨"x", .int 1, ""⟩)])])
    ∧ topNames (.container "" [("top", .container ""
          [("sub", .container "" [("x", .item ⟨"x", .int 1, ""⟩)])])]) = ["top"]
    ∧ topNames (.container "" [("top", .container "" []),
          ("sub", .container "" [("x", .item ⟨"x", .int 1, ""⟩)])]) = ["top", "sub"]
    ∧ (["top"] : List String) ≠ ["top", "sub"] :=
  ⟨rfl, rfl, rfl, rfl, rfl, by decide⟩

/-- C2: the claim asserts that `dump_config` wraps each section name in as
many bracket pairs as its nesting depth.  The code emits exactly one
bracket pair at every depth: for the tree parsed from
`["[top]", "[[sub]]", "x = 1"]` the level-2 subsection `sub` is dumped as
`"[sub]"`, a line that classifies as a level-1 header, not the `"[[sub]]"`
the claim requires. -/
theorem C2_dump_header_always_single_bracket :
    _parse_config ["[top]", "[[sub]]", "x = 1"]
      = .ok (.container "" [("top", .container ""
          [("sub", .container "" [("x", .item ⟨"x", .int 1, ""⟩)])])])
    ∧ _dump_section (.container "" [("top", .container ""
          [("sub", .container "" [("x", .item ⟨"x", .int 1, ""⟩)])])])
      = ["[top]", "[sub]", "x = 1"]
    ∧ _parse_section_header "[sub]" = some ("sub", 1)
    ∧ _parse_section_header "[[sub]]" = some ("sub", 2)
    ∧ ("[sub]" : String) ≠ "[[sub]]" :=
  ⟨rfl, rfl, rfl, rfl, by decide⟩

/-- C3 counterexample: the claim asserts that assigning a plain value to a
name currently bound to a sub-container rebinds the name to a new
`ConfigItem` holding the value.  At the concrete container with child
`s` bound to an (empty) sub-container, assigning the plain value `5` to
`s` leaves `s` bound to a container — no `ConfigItem` shadows it; the
assignment lands inside the sub-container as an item named `value`. -/
theorem C3_no_item_shadows_container :
    boundToItem (cc_setattr_plain (.container "" [("s", .container "" [])]) "s" (.int 5)) "s"
      = false
    ∧ cc_setattr_plain (.container "" [("s", .container "" [])]) "s" (.int 5)
      = .container "" [("s", .container "" [("value", .item ⟨"value", .int 5, ""⟩)])] :=
  ⟨rfl, rfl⟩

/-- C3 (amended): assigning a plain value `v` to `C.n` when `n` is bound
to a `ConfigContainer` does not shadow the container; `n` stays bound to
it, and the source forwards the assignment as `child.value = v`, which
(when the sub-container has no child named `value`) creates a new item
`value` holding `v` inside the sub-container.  The hypothesis
`n ≠ "_comment"` scopes the theorem to where the embedding speaks for the
source's `__setattr__` (whose `'_comment'` branch is string-typed). -/
theorem C3_plain_assignment_forwards_into_container
    (cm kcm : String) (ch kch : List (String × Node)) (n : String) (v : Value)
    (hn : n ≠ "_comment")
    (hb : lookupKey ch n = some (.container kcm kch))
    (hv : containsKey kch "value" = false) :
    lookupKey (childrenOf (cc_setattr_plain (.container cm ch) n v)) n
      = some (.container kcm (kch ++ [("value", .item ⟨"value", v, ""⟩)])) := by
  have hc : containsKey ch n = true := containsKey_of_lookupKey ch n _ hb
  have hset := setValueAt_lookupKey ch n v _ hb
  simp only [cc_setattr_plain, hc, if_pos, childrenOf]
  rw [hset]
  simp [cc_setattr_plain, hv]

/-- C3 witness: the amended theorem instantiated at a concrete container
whose child `s` is a sub-container with comment `"c"`. -/
theorem C3_plain_assignment_forwards_witness :
    lookupKey (childrenOf (cc_setattr_plain
        (.container "" [("s", .container "c" [])]) "s" (.int 7))) "s"
      = some (.container "c" [("value", .item ⟨"value", .int 7, ""⟩)]) :=
  C3_plain_assignment_forwards_into_container "" "c" [("s", .container "c" [])] [] "s"
    (.int 7) (by decide) rfl rfl

/-- C4: on a `SectionHeader(secname, sec_level)` line with no pending
literal, the parser filters its level index for entries of level
`sec_level - 1`; if none exists it raises
`subsection outside a parent section` at that line, else it binds a fresh
container named `secname` (carrying the flushed pending comments) under
the most recently opened container of level `sec_level - 1`, records it at
level `sec_level`, and makes it the current section.  The root is level 0
in the initial index, so `[[sub]]` before any top-level section is fatal
at its line, while a level-1 `[top]` attaches to the root. -/
theorem C4_section_parent_is_latest_lower_level
    (st : PState) (lnum : Nat) (li secname : String) (sec_level : Nat)
    (hh : _parse_section_header li = some (secname, sec_level))
    (hp : st.currentItemName = none) :
    (st.sections.filter (fun p => p.2 == sec_level - 1) = [] →
      parseLine st lnum li = .error ⟨lnum, "subsection outside a parent section"⟩)
    ∧ (∀ ppath plevel ps,
        st.sections.filter (fun p => p.2 == sec_level - 1) = ps ++ [(ppath, plevel)] →
        parseLine st lnum li = .ok { st with
          config := modifyAt st.config ppath
            (fun n => cc_setattr_node n secname (.container (joinSp st.commentLines) []))
          sections := st.sections ++ [(ppath ++ [secname], sec_level)]
          currentSection := some (ppath ++ [secname])
          commentLines := [] })
    ∧ _parse_config ["[[sub]]"] = .error ⟨1, "subsection outside a parent section"⟩
    ∧ _parse_config ["[top]"] = .ok (.container "" [("top", .container "" [])]) := by
  refine ⟨?_, ?_, rfl, rfl⟩
  · intro hf
    simp [parseLine, hh, hp, hf]
  · intro ppath plevel ps hf
    simp [parseLine, hh, hp, hf, List.getLast?_concat]

/-- C4 witness: the error side at the initial state and the line
`[[sub]]` — level 2 with no level-1 container recorded. -/
theorem C4_section_parent_witness :
    parseLine initPState 1 "[[sub]]" = .error ⟨1, "subsection outside a parent section"⟩ :=
  (C4_section_parent_is_latest_lower_level initPState 1 "[[sub]]" "sub" 2 rfl rfl).1 rfl

/-- C5: whenever a multi-line literal is pending, a line that classifies
as a section header, a comment or whitespace is fatal with
`could not evaluate definition` at that (1-based) line; reaching end of
input with a literal still pending is fatal the same way, citing the last
line — shown on `["[sec]", "x = [1,"]`, which errors at line 2.  No
partial tree escapes: `_parse_config` returns either a tree or an error,
never both. -/
theorem C5_pending_literal_fatal_lines
    (st : PState) (lnum : Nat) (li nm : String)
    (hp : st.currentItemName = some nm)
    (hk : (_parse_section_header li).isSome = true
        ∨ _is_comment li = true ∨ _is_whitespace li = true) :
    parseLine st lnum li = .error ⟨lnum, "could not evaluate definition"⟩
    ∧ _parse_config ["[sec]", "x = [1,"] = .error ⟨2, "could not evaluate definition"⟩ := by
  refine ⟨?_, rfl⟩
  cases hsec : _parse_section_header li with
  | some sd =>
      obtain ⟨sn, sl⟩ := sd
      simp [parseLine, hsec, hp]
  | none =>
      rcases hk with hk | hk | hk
      · rw [hsec] at hk
        simp at hk
      · simp [parseLine, hsec, hk, hp]
      · by_cases hc : _is_comment li
        · simp [parseLine, hsec, hc, hp]
        · simp [parseLine, hsec, hc, hk, hp]

/-- C5 witness: the pending state after `["[sec]", "x = [1,"]` meets a
comment line. -/
theorem C5_pending_literal_fatal_witness :
    parseLine stC5 3 "# note" = .error ⟨3, "could not evaluate definition"⟩
    ∧ _parse_config ["[sec]", "x = [1,"] = .error ⟨2, "could not evaluate definition"⟩ :=
  C5_pending_literal_fatal_lines stC5 3 "# note" "x" rfl (Or.inr (Or.inl rfl))

/-- C6: an `ItemDef` line whose name is already bound in the current
section (with no literal pending) is fatal with `duplicate definition` at
that 1-based line; on `["[sec]", "x = 1", "x = 2"]` the error cites
line 3, the second `x` line. -/
theorem C6_duplicate_definition_fatal
    (st : PState) (lnum : Nat) (li item_name val : String) (spath : List String)
    (hh : _parse_section_header li = none)
    (hc : _is_comment li = false)
    (hw : _is_whitespace li = false)
    (hi : _parse_item_def li = some (item_name, val))
    (hp : st.currentItemName = none)
    (hs : st.currentSection = some spath)
    (hd : containsKey (childrenAt st.config spath) item_name = true) :
    parseLine st lnum li = .error ⟨lnum, "duplicate definition"⟩
    ∧ _parse_config ["[sec]", "x = 1", "x = 2"] = .error ⟨3, "duplicate definition"⟩ := by
  refine ⟨?_, rfl⟩
  simp [parseLine, hh, hc, hw, hi, hp, hs, hd]

/-- C6 witness: the state after `["[sec]", "x = 1"]` meets the line
`x = 2` at line number 3. -/
theorem C6_duplicate_definition_witness :
    parseLine stC6 3 "x = 2" = .error ⟨3, "duplicate definition"⟩
    ∧ _parse_config ["[sec]", "x = 1", "x = 2"] = .error ⟨3, "duplicate definition"⟩ :=
  C6_duplicate_definition_fatal stC6 3 "x = 2" "x" "2" ["sec"] rfl rfl rfl rfl rfl rfl rfl

/-- C7: a continuation line of a pending multi-line literal is stripped
and appended to the accumulated fragments, and the direct (separator-free)
concatenation of all fragments is re-evaluated: on success the item is
flushed with the evaluated value, on failure accumulation continues.  In
particular `["[sec]", "x = [1,", "2, 3]"]` parses to item `x` with value
the three-element list `[1, 2, 3]`. -/
theorem C7_continuation_strip_concat_reeval
    (st : PState) (lnum : Nat) (li item_name : String) (spath : List String)
    (hh : _parse_section_header li = none)
    (hc : _is_comment li = false)
    (hw : _is_whitespace li = false)
    (hi : _parse_item_def li = none)
    (hp : st.currentItemName = some item_name)
    (hs : st.currentSection = some spath) :
    (∀ v, literal_eval (String.join (st.currentDefLines ++ [stripStr li])) = some v →
      parseLine st lnum li = .ok { st with
        config := modifyAt st.config spath
          (fun n => cc_setattr_node n item_name (.item ⟨item_name, v, joinSp st.commentLines⟩))
        commentLines := []
        currentDefLines := []
        currentItemName := none })
    ∧ (literal_eval (String.join (st.currentDefLines ++ [stripStr li])) = none →
      parseLine st lnum li
        = .ok { st with currentDefLines := st.currentDefLines ++ [stripStr li] })
    ∧ _parse_config ["[sec]", "x = [1,", "2, 3]"]
      = .ok (.container "" [("sec", .container ""
          [("x", .item ⟨"x", .list [.int 1, .int 2, .int 3], ""⟩)])]) := by
  refine ⟨?_, ?_, rfl⟩
  · intro v hv
    simp [parseLine, hh, hc, hw, hi, hp, hs, hv]
  · intro hv
    simp [parseLine, hh, hc, hw, hi, hp, hv]

/-- C7 witness: the pending state after `["[sec]", "x = [1,"]` meets the
continuation line `2, 3]`; the fragments concatenate to `[1,2, 3]`, which
evaluates to the three-element list. -/
theorem C7_continuation_strip_concat_witness :
    parseLine stC7 3 "2, 3]" = .ok
      { commentLines := []
        currentSection := some ["sec"]
        currentItemName := none
        currentDefLines := []
        config := .container "" [("sec", .container ""
          [("x", .item ⟨"x", .list [.int 1, .int 2, .int 3], ""⟩)])]
        sections := [([], 0), (["sec"], 1)] } :=
  (C7_continuation_strip_concat_reeval stC7 3 "2, 3]" "x" ["sec"]
    rfl rfl rfl rfl rfl rfl).1 (.list [.int 1, .int 2, .int 3]) rfl

/-- C8: an attribute-style read of a name bound to a `ConfigItem` returns
the item's value, not the wrapper, and a read of a name bound to a
`ConfigContainer` returns the container itself; after parsing
`["[sec]", "x = 5"]`, reading `sec` from the root yields the section and
reading `x` from it yields the plain integer `5`. -/
theorem C8_getattr_unwraps_item_value
    (ch : List (String × Node)) (n : String) :
    (∀ it, lookupKey ch n = some (.item it) → cc_getattr ch n = .ok (.val it.value))
    ∧ (∀ cm kch, lookupKey ch n = some (.container cm kch) →
        cc_getattr ch n = .ok (.node (.container cm kch)))
    ∧ _parse_config ["[sec]", "x = 5"]
      = .ok (.container "" [("sec", .container "" [("x", .item ⟨"x", .int 5, ""⟩)])])
    ∧ cc_getattr [("sec", .container "" [("x", .item ⟨"x", .int 5, ""⟩)])] "sec"
      = .ok (.node (.container "" [("x", .item ⟨"x", .int 5, ""⟩)]))
    ∧ cc_getattr [("x", .item ⟨"x", .int 5, ""⟩)] "x" = .ok (.val (.int 5)) := by
  refine ⟨?_, ?_, rfl, rfl, rfl⟩
  · intro it h
    simp [cc_getattr, h]
  · intro cm kch h
    simp [cc_getattr, h]

/-- C8 witness: the item case instantiated at a one-item mapping. -/
theorem C8_getattr_unwraps_witness :
    cc_getattr [("y", .item ⟨"y", .int 3, ""⟩)] "y" = .ok (.val (.int 3)) :=
  (C8_getattr_unwraps_item_value [("y", .item ⟨"y", .int 3, ""⟩)] "y").1
    ⟨"y", .int 3, ""⟩ rfl

/-- C9: with `create_new_items = False`, a source item absent from the
matching target section is skipped: the inner merge loop records a
non-fatal warning naming the section and item, leaves the target section
unchanged, and moves on; the whole call returns without raising, as on
the concrete merge of `[sec] y = 2` into a target whose `sec` holds only
`x = 1`. -/
theorem C9_merge_skips_absent_item
    (secname : String) (uc : Bool) (cm : String) (ch : List (String × Node))
    (itname : String) (item : Node) (rest : List (String × Node)) (warns : List String)
    (habs : lookupKey ch itname = none) :
    update_items secname false uc (.container cm ch) ((itname, item) :: rest) warns
      = update_items secname false uc (.container cm ch) rest
          (warns ++ ["unknown config item: [" ++ secname ++ "]/" ++ itname])
    ∧ (∀ s, cniFor (.flag false) s = false)
    ∧ update_config
        (.container "" [("sec", .container "" [("x", .item ⟨"x", .int 1, ""⟩)])])
        (.container "" [("sec", .container "" [("y", .item ⟨"y", .int 2, ""⟩)])])
        true (.flag false) false
      = .ok (.container "" [("sec", .container "" [("x", .item ⟨"x", .int 1, ""⟩)])],
          ["unknown config item: [sec]/y"]) := by
  refine ⟨?_, fun s => rfl, rfl⟩
  simp [update_items, habs]

/-- C9 witness: the skip step at a concrete target section holding only
`x`, merging an absent item `y`. -/
theorem C9_merge_skips_absent_item_witness :
    update_items "sec" false false (.container "" [("x", .item ⟨"x", .int 1, ""⟩)])
        [("y", .item ⟨"y", .int 2, ""⟩)] []
      = update_items "sec" false false (.container "" [("x", .item ⟨"x", .int 1, ""⟩)]) []
          ["unknown config item: [sec]/y"] :=
  (C9_merge_skips_absent_item "sec" false "" [("x", .item ⟨"x", .int 1, ""⟩)] "y"
    (.item ⟨"y", .int 2, ""⟩) [] [] rfl).1

/-- C10: an attribute-style read of an unbound name raises
`AttributeError` with the message `no such item or section: '<name>'`, and
a read can only succeed on a name that was already bound — the read path
is a pure lookup and never creates a child (the embedding's `__getattr__`
returns without producing any modified container, mirroring the source's
mutation-free read path). -/
theorem C10_getattr_missing_raises
    (ch : List (String × Node)) (attr : String) :
    (lookupKey ch attr = none →
      cc_getattr ch attr = .error ("no such item or section: \x27" ++ attr ++ "\x27"))
    ∧ (∀ r, cc_getattr ch attr = .ok r → (lookupKey ch attr).isSome = true) := by
  constructor
  · intro h
    simp [cc_getattr, h]
  · intro r h
    cases hl : lookupKey ch attr with
    | none => simp [cc_getattr, hl] at h
    | some n => simp

/-- C10 witness: reading `y` from a mapping that binds only `x`. -/
theorem C10_getattr_missing_raises_witness :
    cc_getattr [("x", .item ⟨"x", .int 5, ""⟩)] "y"
      = .error ("no such item or section: \x27y\x27") :=
  (C10_getattr_missing_raises [("x", .item ⟨"x", .int 5, ""⟩)] "y").1 rfl
